import Mathlib

/-! Shallow embedding of the slotting/aggregation engine of the
activity/forecast reconciliation app (source: src/streamlit_app.py).

Modelling conventions:
* timestamps are absolute integer seconds since the epoch, at which
  resolution every quantity of the app (dates, `pd.Timedelta(minutes=30)`
  = 1800 s, one day = 86400 s) is exact;
* float columns ('План', 'Прогноз', 'Равномерность', …) are modelled as
  exact rationals;
* a DataFrame is a list of records; pandas operations that raise on the
  shapes reachable here (`set_index` on a column missing from an empty
  frame, column access on an empty frame, comparison with None) are
  modelled with `Except`;
* Python floor division and `Timestamp.date()/time()` decomposition use
  Int `/` and `%` (Euclidean division, equal to floor division for the
  positive divisors used everywhere).
-/

namespace ActivityApp

/-- One activity record (rows of the activity DataFrame after loading):
`start`/`end` timestamps plus the `main_act` and `skill_variant` labels. -/
structure Interval where
  start : Int
  end_ : Int
  main_act : String
  skill_variant : String
deriving DecidableEq

/-- One forecast record after `process_forecast` renamed the selected
forecast column to 'Прогноз' (here `value`), with its timestamp `ts`
(= `pd.to_datetime('Дата' + ' ' + 'Время')`), channel and system group. -/
structure ForecastRow where
  ts : Int
  value : ℚ
  channel : String
  system_group : String
deriving DecidableEq

/-- A row of the final merged slot table produced by `finalize_slot_df`:
'slot_start', 'План', 'Прогноз', 'Равномерность'. -/
structure SlotRecord where
  slot_start : Int
  plan : ℚ
  forecast : ℚ
  uniformity : ℚ
deriving DecidableEq

/-- A row of the monthly KPI table of `calculate_monthly_kpi`:
'Дата' (day number), 'Время' (second of day), 'Канал коммуникации',
'Скилл группа', 'План', 'Прогноз', 'Дельта'. -/
structure KpiRow where
  date : Int
  time : Int
  channel : String
  skill_group : String
  plan : ℚ
  forecast : ℚ
  delta : ℚ
deriving DecidableEq

/-! Calendar arithmetic

`pd.Timestamp(year, month, day)` and the `.dt.year`/`.dt.month`
accessors are proleptic-Gregorian; the standard civil-calendar
conversion algorithms are used. -/

/-- Day count since 1970-01-01 of the civil date (y, m, d). -/
def daysFromCivil (y m d : Int) : Int :=
  let y2 := if m ≤ 2 then y - 1 else y
  let era := y2 / 400
  let yoe := y2 - era * 400
  let doy := (153 * (m + (if m > 2 then -3 else 9)) + 2) / 5 + d - 1
  let doe := yoe * 365 + yoe / 4 - yoe / 100 + doy
  era * 146097 + doe - 719468

/-- Civil date (y, m, d) of a day count since 1970-01-01. -/
def civilFromDays (z : Int) : Int × Int × Int :=
  let z2 := z + 719468
  let era := z2 / 146097
  let doe := z2 - era * 146097
  let yoe := (doe - doe / 1460 + doe / 36524 - doe / 146097) / 365
  let y := yoe + era * 400
  let doy := doe - (365 * yoe + yoe / 4 - yoe / 100)
  let mp := (5 * doy + 2) / 153
  let d := doy - (153 * mp + 2) / 5 + 1
  let m := mp + (if mp < 10 then 3 else -9)
  (if m ≤ 2 then y + 1 else y, m, d)

/-- The `ts.dt.year` of a timestamp in seconds. -/
def yearOf (ts : Int) : Int := (civilFromDays (ts / 86400)).1

/-- The `ts.dt.month` of a timestamp in seconds. -/
def monthOf (ts : Int) : Int := (civilFromDays (ts / 86400)).2.1

/-- Seconds timestamp of `pd.Timestamp(year=y, month=m, day=1)`. -/
def monthStartSec (y m : Int) : Int := 86400 * daysFromCivil y m 1

/-- The (year, month) of the month following (y, m). -/
def nextMonth (y m : Int) : Int × Int :=
  if m = 12 then (y + 1, 1) else (y, m + 1)

/-- Number of days in month (y, m). -/
def daysInMonth (y m : Int) : Int :=
  daysFromCivil (nextMonth y m).1 (nextMonth y m).2 1 - daysFromCivil y m 1

/-! Slot generation

`pd.date_range(start=a, end=b, freq=w, inclusive='left')` produces the
arithmetic progression a, a+w, a+2w, … of all points < b; its length is
the non-negative ceiling of (b-a)/w, i.e. `⌊(b - a + w - 1) / w⌋` for
the positive widths used here (30 minutes or 1 day). -/

/-- Slot starts of `pd.date_range(start, stop, freq=w, inclusive='left')`. -/
def date_range_left (start stop w : Int) : List Int :=
  (List.range ((stop - start + w - 1) / w).toNat).map
    fun (i : Nat) => start + (i : Int) * w

/-- Slot width in seconds: 30 minutes in hourly mode, 1 day in daily mode
(`calculate_plan` lines 278-283). -/
def slot_width (is_hourly : Bool) : Int := if is_hourly then 1800 else 86400

/-! Interval Overlap Calculator (`calculate_overlap`, lines 756-779) -/

/-- Model of `calculate_overlap(df_activity, slot_start, slot_end)`: rows with
`start < slot_end` and `end > slot_start` are kept; the kept rows
contribute `min(end, slot_end) - max(start, slot_start)` seconds, and the
total is returned in hours (seconds / 3600); an empty selection returns
exactly 0.0. -/
def calculate_overlap (df_activity : List Interval) (slot_start slot_end : Int) : ℚ :=
  let filtered := df_activity.filter fun r =>
    decide (r.start < slot_end ∧ r.end_ > slot_start)
  if filtered.isEmpty then 0
  else (((filtered.map fun r => min r.end_ slot_end - max r.start slot_start).sum : Int) : ℚ) / 3600

/-- The integer second count underlying `calculate_overlap`: the sum of
`min(end, slot_end) - max(start, slot_start)` over the mask-selected rows
(the hour conversion / 3600 is applied afterwards). -/
def secondsOverlap (df : List Interval) (slot_start slot_end : Int) : Int :=
  ((df.filter fun r => decide (r.start < slot_end ∧ r.end_ > slot_start)).map
    fun r => min r.end_ slot_end - max r.start slot_start).sum

/-! Plan Aggregator (`calculate_plan`, lines 264-286) -/

/-- The `plan_list` built by `calculate_plan`: one ('slot_start', 'План')
pair per slot, the plan being the overlap of the activity with
`[t, t + width)`. -/
def plan_rows (df_period : List Interval) (times : List Int) (is_hourly : Bool) :
    List (Int × ℚ) :=
  times.map fun t => (t, calculate_overlap df_period t (t + slot_width is_hourly))

/-- Model of `calculate_plan(df_period, times, is_hourly)`.  The final
`pd.DataFrame(plan_list).set_index('slot_start')` raises
`KeyError: 'slot_start'` when `plan_list` is empty, because
`pd.DataFrame([])` has no columns; that failure is the `Except.error`
branch. -/
def calculate_plan (df_period : List Interval) (times : List Int) (is_hourly : Bool) :
    Except String (List (Int × ℚ)) :=
  let plan_list := plan_rows df_period times is_hourly
  if plan_list.isEmpty then Except.error ("KeyError: slot_start")
  else Except.ok plan_list

/-! Forecast Aggregator (`calculate_forecast`, lines 288-318) -/

/-- The `forecast_list` built by `calculate_forecast` over a (possibly
pre-filtered) forecast frame: hourly slots match rows with `ts == t`
exactly, daily slots match rows with `t ≤ ts < t + 1 day`; matching
values are summed. -/
def forecast_rows (df_fc : List ForecastRow) (times : List Int) (is_hourly : Bool) :
    List (Int × ℚ) :=
  times.map fun t =>
    (t, ((df_fc.filter fun r =>
        if is_hourly then decide (r.ts = t)
        else decide (t ≤ r.ts ∧ r.ts < t + 86400)).map ForecastRow.value).sum)

/-- Model of `calculate_forecast(df_forecast, times, start_dt, end_dt, is_hourly)`.
An empty forecast frame short-circuits to an all-zero column (built from
a dict, so `set_index` succeeds even with zero slots).  Otherwise the
daily mode first restricts rows to `[start_dt, end_dt)` (comparing with
the default `None` bounds would raise a TypeError), and the final
`pd.DataFrame(forecast_list).set_index('slot_start')` raises
`KeyError: 'slot_start'` when `times` is empty. -/
def calculate_forecast (df_forecast : List ForecastRow) (times : List Int)
    (start_dt end_dt : Option Int) (is_hourly : Bool) :
    Except String (List (Int × ℚ)) :=
  if df_forecast.isEmpty then
    Except.ok (times.map fun t => (t, (0 : ℚ)))
  else
    match is_hourly, start_dt, end_dt with
    | true, _, _ =>
        let forecast_list := forecast_rows df_forecast times true
        if forecast_list.isEmpty then Except.error ("KeyError: slot_start")
        else Except.ok forecast_list
    | false, some s, some e =>
        let forecast_list :=
          forecast_rows (df_forecast.filter fun r => decide (s ≤ r.ts ∧ r.ts < e)) times false
        if forecast_list.isEmpty then Except.error ("KeyError: slot_start")
        else Except.ok forecast_list
    | false, _, _ => Except.error ("TypeError: cannot compare Timestamp with None")

/-! Slot Merger / Uniformity Engine (`finalize_slot_df`, lines 320-361) -/

/-- First value stored under key `t`, 0 if absent: the effect of
`pd.concat([...], axis=1).fillna(0)` on the column that lacks key `t`. -/
def lookupD (rows : List (Int × ℚ)) (t : Int) : ℚ :=
  match rows.find? fun p => decide (p.1 = t) with
  | some p => p.2
  | none => 0

/-- Insert into a sorted, duplicate-free list of keys. -/
def insertKey (t : Int) : List Int → List Int
  | [] => [t]
  | x :: xs => if t < x then t :: x :: xs
               else if t = x then x :: xs
               else x :: insertKey t xs

/-- Sorted union of index keys, as produced by pandas index alignment.
(`pd.concat(axis=1)` keeps the common order when the two indexes
coincide — the situation in every call site, both aggregators being
indexed by the same `times` from `pd.date_range`, which is sorted and
duplicate-free — and sorts the union otherwise.) -/
def sortedKeys (ts : List Int) : List Int := ts.foldr insertKey []

/-- Outer join of the plan and forecast columns on 'slot_start', missing
entries filled with 0 (`pd.concat([plan_df, forecast_df], axis=1).fillna(0)`). -/
def outerJoin (plan_df forecast_df : List (Int × ℚ)) : List (Int × ℚ × ℚ) :=
  (sortedKeys (plan_df.map Prod.fst ++ forecast_df.map Prod.fst)).map
    fun t => (t, lookupD plan_df t, lookupD forecast_df t)

/-- The optional year/month restriction of `finalize_slot_df`
(lines 341-345): applied only when both `year` and `month` are given. -/
def restrictYM (year month : Option Int) (merged : List (Int × ℚ × ℚ)) :
    List (Int × ℚ × ℚ) :=
  match year, month with
  | some y, some m => merged.filter fun r => decide (yearOf r.1 = y ∧ monthOf r.1 = m)
  | _, _ => merged

/-- Column sum `slot_df['План'].sum()`. -/
def totalPlan (merged : List (Int × ℚ × ℚ)) : ℚ := (merged.map fun r => r.2.1).sum

/-- Column sum `slot_df['Прогноз'].sum()`. -/
def totalForecast (merged : List (Int × ℚ × ℚ)) : ℚ := (merged.map fun r => r.2.2).sum

/-- The scale factor of line 357:
`k = total_plan / total_forecast if total_forecast > 0 else 0.0`. -/
def kOf (merged : List (Int × ℚ × ℚ)) : ℚ :=
  if 0 < totalForecast merged then totalPlan merged / totalForecast merged else 0

/-- Model of `finalize_slot_df(plan_df, forecast_df, year, month)`: outer-join the
two columns, optionally restrict to (year, month), return the empty
table when the restriction leaves nothing, otherwise attach
'Равномерность' = 'Прогноз' * k. -/
def finalize_slot_df (plan_df forecast_df : List (Int × ℚ)) (year month : Option Int) :
    List SlotRecord :=
  let slot_df := restrictYM year month (outerJoin plan_df forecast_df)
  if slot_df.isEmpty then []
  else
    let k := kOf slot_df
    slot_df.map fun r => ⟨r.1, r.2.1, r.2.2, r.2.2 * k⟩

/-! Daily-view pipeline (`prepare_slot_data`, daily branch,
lines 391-427, and the display month filter of
`render_chart_and_table`, lines 446-451) -/

/-- The activity restriction of lines 413-421, guarded by the presence of
the session keys; `session_ym` is `some (y, m)` when both keys exist. -/
def session_month_filter (session_ym : Option (Int × Int)) (df : List Interval) :
    List Interval :=
  match session_ym with
  | some (y, m) => df.filter fun r => decide (yearOf r.start = y ∧ monthOf r.start = m)
  | none => df

/-- The daily branch of `prepare_slot_data`: slots are the days of
`pd.date_range(min_date, max_date, freq='D', inclusive='left')`, the
plan is computed over the (possibly month-restricted) full activity, the
forecast over `[min_date, max_date + 1 day)`, and `finalize_slot_df` is
called with `year` and `month` omitted (line 427). -/
def prepare_slot_data_daily (df_filtered : List Interval) (df_forecast : List ForecastRow)
    (min_date max_date : Int) (session_ym : Option (Int × Int)) :
    Except String (List SlotRecord) :=
  let start_dt := min_date
  let end_dt := max_date + 86400
  let times := date_range_left min_date max_date 86400
  let df_period := session_month_filter session_ym df_filtered
  match calculate_plan df_period times false with
  | Except.error e => Except.error e
  | Except.ok plan_df =>
      match calculate_forecast df_forecast times (some start_dt) (some end_dt) false with
      | Except.error e => Except.error e
      | Except.ok forecast_df =>
          Except.ok (finalize_slot_df plan_df forecast_df none none)

/-- The month filter applied for display by `render_chart_and_table`
(lines 447-451) after `finalize_slot_df` already ran unrestricted. -/
def displayMonthFilter (year month : Int) (slot_df : List SlotRecord) : List SlotRecord :=
  slot_df.filter fun r => decide (yearOf r.slot_start = year ∧ monthOf r.slot_start = month)

/-! Monthly KPI Compiler (`calculate_monthly_kpi`, lines 589-639) -/

/-- The fixed `CHANNEL_MAPPING` dict (lines 19-27). -/
def CHANNEL_MAPPING : List (String × List String) := [
  ("Входящие звонки", ["Входящие звонки"]),
  ("Оффлайн функционал", ["Работа", "Дежурство", "Письма"]),
  ("Отработки-Доп рабочие интервалы", ["Доп рабочие интервалы", "Отработка"]),
  ("Чаты", ["Чат"]),
  ("Перерывы", ["Свободное время", "Обед", "Перерыв"]),
  ("Отпуск", ["Отпуск", "Учебный отпуск"]),
  ("Больничный", ["Больничный"])]

/-- Lookup `CHANNEL_MAPPING[channel]`.  Lookup of an unknown key would raise in
Python, but every caller passes channels drawn from the mapping's keys;
the `[]` default is unreachable there. -/
def channelActs (channel : String) : List String :=
  match CHANNEL_MAPPING.find? fun p => decide (p.1 = channel) with
  | some p => p.2
  | none => []

/-- Lookup `VARIANT_TO_SYSTEM.get(skill_variant, skill_variant)` — the group
mapping is data (mapping.json), passed here as an association list;
absent keys fall back to the variant itself. -/
def lookupVariant (variant_to_system : List (String × String)) (k : String) : String :=
  match variant_to_system.find? fun p => decide (p.1 = k) with
  | some p => p.2
  | none => k

/-- The `kpi_data` rows built by the triple loop of
`calculate_monthly_kpi` (channel × skill-variant × 30-minute slot of the
month), before the 'Дельта' column is attached (`delta` still 0 here). -/
def kpi_rows (df_filtered : List Interval) (df_forecast : List ForecastRow)
    (selected_channels selected_variants : List String)
    (variant_to_system : List (String × String)) (year month : Int) : List KpiRow :=
  let start_month := monthStartSec year month
  let end_month := monthStartSec (nextMonth year month).1 (nextMonth year month).2
  let slots_month := date_range_left start_month end_month 1800
  let df_act_m := df_filtered.filter fun r =>
    decide (r.start < end_month ∧ r.end_ > start_month)
  let df_fc_m := df_forecast.filter fun r =>
    decide (start_month ≤ r.ts ∧ r.ts < end_month)
  selected_channels.flatMap fun channel =>
    let df_act_channel := df_act_m.filter fun r => (channelActs channel).contains r.main_act
    selected_variants.flatMap fun skill_variant =>
      let system_group := lookupVariant variant_to_system skill_variant
      let df_act_skill := df_act_channel.filter fun r => decide (r.skill_variant = skill_variant)
      let df_fc_channel := df_fc_m.filter fun r =>
        decide (r.channel = channel ∧ r.system_group = system_group)
      slots_month.map fun ts =>
        { date := ts / 86400
          time := ts % 86400
          channel := channel
          skill_group := skill_variant
          plan := calculate_overlap df_act_skill ts (ts + 1800)
          forecast := ((df_fc_channel.filter fun r => decide (r.ts = ts)).map
            ForecastRow.value).sum
          delta := 0 }

/-- Key `(r.date, r.time, r.channel, r.skill_group)` — the
(date, time, channel, skill-group) key of a KPI row. -/
def kpiKey (r : KpiRow) : Int × Int × String × String :=
  (r.date, r.time, r.channel, r.skill_group)

/-- Model of `calculate_monthly_kpi(...)`: builds `kpi_data`, then
`kpi_df['Дельта'] = kpi_df['План'] - kpi_df['Прогноз']`.  Two pandas
failures are reachable and modelled as `Except.error`:
* when `df_forecast` is empty, the replacement frame of line 605 is
  created with columns ['ts', 'Прогноз', 'Канал коммуникации',
  'skill_variant'] — no 'system_group' — so the first pass through the
  inner loop (any non-empty channel and skill lists) raises
  `KeyError: 'system_group'` at line 622;
* when `kpi_data` stays empty (an empty channel or skill list),
  `pd.DataFrame(kpi_data)` has no columns at all, so reading
  `kpi_df['План']` raises `KeyError: 'План'` at line 638.
(`end_month = start_month + MonthEnd(1) + Timedelta(days=1)` is the
first day of the following month.) -/
def calculate_monthly_kpi (df_filtered : List Interval) (df_forecast : List ForecastRow)
    (selected_channels selected_variants : List String)
    (variant_to_system : List (String × String)) (year month : Int) :
    Except String (List KpiRow) :=
  if df_forecast.isEmpty && (!selected_channels.isEmpty) && (!selected_variants.isEmpty) then
    Except.error ("KeyError: system_group")
  else
    let kpi_data := kpi_rows df_filtered df_forecast selected_channels selected_variants
      variant_to_system year month
    if kpi_data.isEmpty then Except.error ("KeyError: План")
    else Except.ok (kpi_data.map fun r => { r with delta := r.plan - r.forecast })

/-! Theorems -/

/-! Generic list-sum helpers -/

theorem sum_map_zero {α : Type} (l : List α) : (l.map fun _ => (0 : Int)).sum = 0 := by
  induction l with
  | nil => simp
  | cons a l ih => simp [ih]

theorem sum_map_add_distrib {α : Type} (l : List α) (f g : α → Int) :
    (l.map fun x => f x + g x).sum = (l.map f).sum + (l.map g).sum := by
  induction l with
  | nil => simp
  | cons a l ih => simp only [List.map_cons, List.sum_cons, ih]; ring

theorem sum_map_ratCast_div {α : Type} (l : List α) (f : α → Int) (c : ℚ) :
    (l.map fun x => ((f x : Int) : ℚ) / c).sum = (((l.map f).sum : Int) : ℚ) / c := by
  induction l with
  | nil => simp
  | cons a l ih =>
      simp only [List.map_cons, List.sum_cons, ih]
      push_cast
      rw [add_div]

/-! Overlap calculator lemmas -/

theorem calculate_overlap_eq (df : List Interval) (s e : Int) :
    calculate_overlap df s e = ((secondsOverlap df s e : Int) : ℚ) / 3600 := by
  simp only [calculate_overlap, secondsOverlap]
  split
  · next h =>
      rw [List.isEmpty_iff] at h
      rw [h]
      simp
  · rfl

theorem secondsOverlap_cons (r : Interval) (df : List Interval) (s e : Int) :
    secondsOverlap (r :: df) s e
      = (if r.start < e ∧ r.end_ > s then min r.end_ e - max r.start s else 0)
        + secondsOverlap df s e := by
  by_cases h : r.start < e ∧ r.end_ > s <;>
    simp [secondsOverlap, List.filter_cons, h]

/-- Claim C1: `calculate_overlap` sums, over exactly the rows with
`start < slot_end` and `end > slot_start` (strict), the per-row hours
`(min(end, slot_end) - max(start, slot_start)) / 3600`; an empty
selection gives exactly 0, and a row merely touching a slot boundary
contributes nothing. -/
theorem claim_C1 (df : List Interval) (s e : Int) :
    calculate_overlap df s e
        = ((df.filter fun r => decide (r.start < e ∧ r.end_ > s)).map
            fun r => ((min r.end_ e - max r.start s : Int) : ℚ) / 3600).sum ∧
    ((df.filter fun r => decide (r.start < e ∧ r.end_ > s)) = [] →
      calculate_overlap df s e = 0) ∧
    (∀ r : Interval, r.end_ = s ∨ r.start = e →
      calculate_overlap (r :: df) s e = calculate_overlap df s e) := by
  refine ⟨?_, ?_, ?_⟩
  · rw [calculate_overlap_eq, sum_map_ratCast_div]
    rfl
  · intro h
    rw [calculate_overlap_eq]
    simp only [secondsOverlap, h, List.map_nil, List.sum_nil]
    norm_num
  · intro r hr
    rw [calculate_overlap_eq, calculate_overlap_eq]
    have hmask : decide (r.start < e ∧ r.end_ > s) = false := by
      rcases hr with h | h <;> simp [h]
    simp only [secondsOverlap, List.filter_cons, hmask]
    rfl

/-- Witness for C1 at concrete inputs: the interval 10:00-10:45 against
the slot 10:00-10:30, the empty-selection case, and an interval ending
exactly at the slot start. -/
theorem claim_C1_witness :
    calculate_overlap [] 36000 37800 = 0 ∧
    calculate_overlap (⟨32400, 36000, "a", "b"⟩ :: [⟨36000, 38700, "a", "b"⟩]) 36000 37800
      = calculate_overlap [⟨36000, 38700, "a", "b"⟩] 36000 37800 := by
  constructor
  · exact (claim_C1 [] 36000 37800).2.1 rfl
  · exact (claim_C1 [⟨36000, 38700, "a", "b"⟩] 36000 37800).2.2
      ⟨32400, 36000, "a", "b"⟩ (Or.inl rfl)

/-! Conservation of hours across a slot grid (claim C2) -/

theorem slotContrib_eq_clamp (a b u v : Int) (hab : a ≤ b) (huv : u ≤ v) :
    (if a < v ∧ b > u then min b v - max a u else 0)
      = max (min v b) a - max (min u b) a := by
  split <;> omega

theorem sum_range_telescope (g : Int → Int) (ps w : Int) (n : Nat) :
    ((List.range n).map fun (i : Nat) => g (ps + (i : Int) * w + w) - g (ps + (i : Int) * w)).sum
      = g (ps + (n : Int) * w) - g ps := by
  induction n with
  | zero => simp
  | succ n ih =>
      rw [List.range_succ, List.map_append, List.sum_append, ih]
      have harg : ps + ((n + 1 : Nat) : Int) * w = ps + (n : Int) * w + w := by
        push_cast
        ring
      simp only [List.map_cons, List.map_nil, List.sum_cons, List.sum_nil, harg]
      omega

theorem interval_sum_over_slots (a b ps w : Int) (n : Nat) (hab : a ≤ b) (hw : 0 < w)
    (ha : ps ≤ a) (hb : b ≤ ps + (n : Int) * w) :
    ((List.range n).map fun (i : Nat) =>
        if a < ps + (i : Int) * w + w ∧ b > ps + (i : Int) * w
        then min b (ps + (i : Int) * w + w) - max a (ps + (i : Int) * w) else 0).sum
      = b - a := by
  have hcongr : ∀ i ∈ List.range n,
      (if a < ps + (i : Int) * w + w ∧ b > ps + (i : Int) * w
       then min b (ps + (i : Int) * w + w) - max a (ps + (i : Int) * w) else 0)
        = (fun x => max (min x b) a) (ps + (i : Int) * w + w)
          - (fun x => max (min x b) a) (ps + (i : Int) * w) := by
    intro i _
    exact slotContrib_eq_clamp a b (ps + (i : Int) * w) (ps + (i : Int) * w + w) hab (by omega)
  rw [List.map_congr_left hcongr, sum_range_telescope (fun x => max (min x b) a) ps w n]
  have h1 : max (min (ps + (n : Int) * w) b) a = b := by omega
  have h2 : max (min ps b) a = a := by omega
  omega

theorem sum_overlap_swap (df : List Interval) (times : List Int) (w : Int) :
    (times.map fun t => secondsOverlap df t (t + w)).sum
      = (df.map fun r =>
          (times.map fun t =>
            if r.start < t + w ∧ r.end_ > t
            then min r.end_ (t + w) - max r.start t else 0).sum).sum := by
  induction df with
  | nil =>
      simp only [List.map_nil, List.sum_nil]
      have : ∀ t ∈ times, secondsOverlap [] t (t + w) = (fun _ : Int => (0 : Int)) t :=
        fun t _ => rfl

      rw [List.map_congr_left this, sum_map_zero]
  | cons r df ih =>
      have hsplit : ∀ t ∈ times, secondsOverlap (r :: df) t (t + w)
          = (fun t => (if r.start < t + w ∧ r.end_ > t
              then min r.end_ (t + w) - max r.start t else 0)
            + secondsOverlap df t (t + w)) t :=
        fun t _ => secondsOverlap_cons r df t (t + w)
      rw [List.map_congr_left hsplit, sum_map_add_distrib, ih]
      simp [List.map_cons, List.sum_cons]

theorem date_range_left_exact (ps w : Int) (n : Nat) (hw : 0 < w) :
    date_range_left ps (ps + (n : Int) * w) w
      = (List.range n).map fun (i : Nat) => ps + (i : Int) * w := by
  unfold date_range_left
  have hcount : ((ps + (n : Int) * w - ps + w - 1) / w).toNat = n := by
    have harg : ps + (n : Int) * w - ps + w - 1 = (w - 1) + (n : Int) * w := by ring
    rw [harg, Int.add_mul_ediv_right _ _ (by omega : w ≠ 0),
      Int.ediv_eq_zero_of_lt (by omega) (by omega)]
    omega
  rw [hcount]

/-- Claim C2 (conservation law): for activity intervals fully contained
in the period `[ps, ps + n·width)` and the full slot grid of that
period, the per-slot plan values of `calculate_plan` sum to exactly the
total duration of the intervals in hours (the real computation is exact
rational arithmetic here, so the float tolerance is equality). -/
theorem claim_C2 (df : List Interval) (is_hourly : Bool) (ps : Int) (n : Nat)
    (hinv : ∀ r ∈ df, r.start < r.end_)
    (hlo : ∀ r ∈ df, ps ≤ r.start)
    (hhi : ∀ r ∈ df, r.end_ ≤ ps + (n : Int) * slot_width is_hourly)
    (rows : List (Int × ℚ))
    (hok : calculate_plan df
        (date_range_left ps (ps + (n : Int) * slot_width is_hourly) (slot_width is_hourly))
        is_hourly = Except.ok rows) :
    (rows.map Prod.snd).sum
      = (df.map fun r => ((r.end_ - r.start : Int) : ℚ) / 3600).sum := by
  have hw : 0 < slot_width is_hourly := by cases is_hourly <;> norm_num [slot_width]
  simp only [calculate_plan] at hok
  split at hok
  · exact Except.noConfusion hok
  · injection hok with hok
    subst hok
    simp only [plan_rows, List.map_map]
    have hsnd : (Prod.snd ∘ fun t => (t, calculate_overlap df t (t + slot_width is_hourly)))
        = fun t => calculate_overlap df t (t + slot_width is_hourly) := rfl
    rw [hsnd]
    have hcast : ∀ t ∈ date_range_left ps (ps + (n : Int) * slot_width is_hourly)
        (slot_width is_hourly),
        calculate_overlap df t (t + slot_width is_hourly)
          = (fun t => ((secondsOverlap df t (t + slot_width is_hourly) : Int) : ℚ) / 3600) t :=
      fun t _ => calculate_overlap_eq df t (t + slot_width is_hourly)
    rw [List.map_congr_left hcast, sum_map_ratCast_div, sum_overlap_swap,
      date_range_left_exact ps (slot_width is_hourly) n hw, sum_map_ratCast_div]
    have hper : ∀ r ∈ df,
        (((List.range n).map fun (i : Nat) => ps + (i : Int) * slot_width is_hourly).map
          fun t => if r.start < t + slot_width is_hourly ∧ r.end_ > t
            then min r.end_ (t + slot_width is_hourly) - max r.start t else 0).sum
          = (fun r : Interval => r.end_ - r.start) r := by
      intro r hr
      rw [List.map_map]
      have hcomp : ((fun t => if r.start < t + slot_width is_hourly ∧ r.end_ > t
            then min r.end_ (t + slot_width is_hourly) - max r.start t else 0)
              ∘ fun (i : Nat) => ps + (i : Int) * slot_width is_hourly)
          = fun (i : Nat) =>
              if r.start < ps + (i : Int) * slot_width is_hourly + slot_width is_hourly
                ∧ r.end_ > ps + (i : Int) * slot_width is_hourly
              then min r.end_ (ps + (i : Int) * slot_width is_hourly + slot_width is_hourly)
                - max r.start (ps + (i : Int) * slot_width is_hourly) else 0 := rfl
      rw [hcomp, interval_sum_over_slots r.start r.end_ ps (slot_width is_hourly) n
        (le_of_lt (hinv r hr)) hw (hlo r hr) (hhi r hr)]
    rw [show (df.map fun r =>
        (((List.range n).map fun (i : Nat) => ps + (i : Int) * slot_width is_hourly).map
          fun t => if r.start < t + slot_width is_hourly ∧ r.end_ > t
            then min r.end_ (t + slot_width is_hourly) - max r.start t else 0).sum)
      = df.map fun r : Interval => r.end_ - r.start from List.map_congr_left hper]

/-- Witness for C2: one hour of activity inside a 48-slot hourly day. -/
theorem claim_C2_witness :
    (((plan_rows [⟨0, 3600, "a", "b"⟩]
        (date_range_left 0 (0 + ((48 : Nat) : Int) * slot_width true) (slot_width true))
        true).map Prod.snd).sum
      = (([⟨0, 3600, "a", "b"⟩] : List Interval).map
          fun r => ((r.end_ - r.start : Int) : ℚ) / 3600).sum) := by
  exact claim_C2 [⟨0, 3600, "a", "b"⟩] true 0 48 (by decide) (by decide) (by decide) _ rfl

/-! Slot generator properties (claim C5) -/

theorem date_range_left_get (ps st w : Int) (i : Nat)
    (h : i < (date_range_left ps st w).length) :
    (date_range_left ps st w).get ⟨i, h⟩ = ps + (i : Int) * w := by
  simp [date_range_left, List.get_eq_getElem]

/-- Claim C5: for either mode (hourly = 30-minute slots, daily = 1-day
slots) the generated slot starts are spaced by the slot width
(contiguous, hence non-overlapping), strictly increasing, every instant
of `[ps, pe)` lies in exactly one slot, and the sequence is empty
exactly when `pe ≤ ps`. -/
theorem claim_C5 (is_hourly : Bool) (ps pe : Int) :
    (∀ (i : Nat) (h1 : i < (date_range_left ps pe (slot_width is_hourly)).length)
        (h2 : i + 1 < (date_range_left ps pe (slot_width is_hourly)).length),
      (date_range_left ps pe (slot_width is_hourly)).get ⟨i + 1, h2⟩
        = (date_range_left ps pe (slot_width is_hourly)).get ⟨i, h1⟩
            + slot_width is_hourly) ∧
    List.Pairwise (fun a b : Int => a < b) (date_range_left ps pe (slot_width is_hourly)) ∧
    (∀ x : Int, ps ≤ x → x < pe →
      ∃! t, t ∈ date_range_left ps pe (slot_width is_hourly)
        ∧ t ≤ x ∧ x < t + slot_width is_hourly) ∧
    (date_range_left ps pe (slot_width is_hourly) = [] ↔ pe ≤ ps) := by
  have hw : 0 < slot_width is_hourly := by cases is_hourly <;> norm_num [slot_width]
  refine ⟨?_, ?_, ?_, ?_⟩
  · intro i h1 h2
    rw [date_range_left_get, date_range_left_get]
    push_cast
    ring
  · unfold date_range_left
    refine List.Pairwise.map _ ?_ (List.pairwise_lt_range _)
    intro a b hab
    exact add_lt_add_left
      (mul_lt_mul_of_pos_right (by exact_mod_cast hab) hw) ps
  · intro x h1 h2
    cases is_hourly <;> simp only [slot_width] <;> norm_num
    · refine ⟨ps + ((x - ps).toNat / 86400 : Nat) * 86400, ⟨?_, by omega, by omega⟩, ?_⟩
      · simp only [date_range_left, List.mem_map, List.mem_range]
        exact ⟨(x - ps).toNat / 86400, by omega, rfl⟩
      · rintro y ⟨hy, hy1, hy2⟩
        simp only [date_range_left, List.mem_map, List.mem_range] at hy
        obtain ⟨j, hj, rfl⟩ := hy
        omega
    · refine ⟨ps + ((x - ps).toNat / 1800 : Nat) * 1800, ⟨?_, by omega, by omega⟩, ?_⟩
      · simp only [date_range_left, List.mem_map, List.mem_range]
        exact ⟨(x - ps).toNat / 1800, by omega, rfl⟩
      · rintro y ⟨hy, hy1, hy2⟩
        simp only [date_range_left, List.mem_map, List.mem_range] at hy
        obtain ⟨j, hj, rfl⟩ := hy
        omega
  · cases is_hourly <;> simp only [slot_width] <;> norm_num <;>
      simp only [date_range_left] <;>
      rw [List.map_eq_nil_iff, List.range_eq_nil] <;>
      omega

/-- Witness for C5: the hourly grid of a full day, its first two slots
and the slot containing second 5000. -/
theorem claim_C5_witness :
    ((date_range_left 0 86400 (slot_width true)).get ⟨1, by decide⟩
      = (date_range_left 0 86400 (slot_width true)).get ⟨0, by decide⟩ + slot_width true) ∧
    (∃! t, t ∈ date_range_left 0 86400 (slot_width true)
      ∧ t ≤ 5000 ∧ 5000 < t + slot_width true) := by
  exact ⟨(claim_C5 true 0 86400).1 0 (by decide) (by decide),
    (claim_C5 true 0 86400).2.2.1 5000 (by decide) (by decide)⟩

/-! Merger / uniformity lemmas (claims C3, C7, C9, C10) -/

theorem lookupD_nonneg (rows : List (Int × ℚ)) (t : Int)
    (h : ∀ p ∈ rows, 0 ≤ p.2) : 0 ≤ lookupD rows t := by
  unfold lookupD
  cases hf : rows.find? fun p => decide (p.1 = t) with
  | none => exact le_refl 0
  | some p => exact h p (List.mem_of_find?_eq_some hf)

theorem lookupD_zero (times : List Int) (t : Int) :
    lookupD (times.map fun t' => (t', (0 : ℚ))) t = 0 := by
  unfold lookupD
  cases hf : (times.map fun t' => (t', (0 : ℚ))).find? fun p => decide (p.1 = t) with
  | none => rfl
  | some p =>
      have hp := List.mem_of_find?_eq_some hf
      obtain ⟨t', _, rfl⟩ := List.mem_map.mp hp
      rfl

theorem outerJoin_mem (plan_df forecast_df : List (Int × ℚ)) :
    ∀ r ∈ outerJoin plan_df forecast_df,
      r.2.1 = lookupD plan_df r.1 ∧ r.2.2 = lookupD forecast_df r.1 := by
  intro r hr
  obtain ⟨t, _, rfl⟩ := List.mem_map.mp hr
  exact ⟨rfl, rfl⟩

theorem restrictYM_subset (year month : Option Int) (merged : List (Int × ℚ × ℚ)) :
    ∀ r ∈ restrictYM year month merged, r ∈ merged := by
  intro r hr
  cases year with
  | none => exact hr
  | some y =>
      cases month with
      | none => exact hr
      | some m => exact List.mem_of_mem_filter hr

theorem kOf_nonneg (merged : List (Int × ℚ × ℚ)) (h : ∀ r ∈ merged, 0 ≤ r.2.1) :
    0 ≤ kOf merged := by
  unfold kOf
  split
  · next htf =>
      refine div_nonneg ?_ (le_of_lt htf)
      refine List.sum_nonneg ?_
      intro x hx
      obtain ⟨r, hr, rfl⟩ := List.mem_map.mp hx
      exact h r hr
  · exact le_refl 0

/-- Every record of `finalize_slot_df` carries uniformity = forecast ×
the scale factor of the (possibly restricted) merged table. -/
theorem finalize_mem_eq (plan_df forecast_df : List (Int × ℚ)) (year month : Option Int) :
    ∀ s ∈ finalize_slot_df plan_df forecast_df year month,
      s.uniformity
        = s.forecast * kOf (restrictYM year month (outerJoin plan_df forecast_df)) := by
  intro s hs
  simp only [finalize_slot_df] at hs
  split at hs
  · exact absurd hs (List.not_mem_nil s)
  · obtain ⟨r, hr, rfl⟩ := List.mem_map.mp hs
    rfl

theorem finalize_nonneg (plan_df forecast_df : List (Int × ℚ)) (year month : Option Int)
    (hp : ∀ p ∈ plan_df, 0 ≤ p.2) (hf : ∀ p ∈ forecast_df, 0 ≤ p.2) :
    ∀ s ∈ finalize_slot_df plan_df forecast_df year month,
      0 ≤ s.plan ∧ 0 ≤ s.forecast ∧ 0 ≤ s.uniformity := by
  intro s hs
  simp only [finalize_slot_df] at hs
  split at hs
  · exact absurd hs (List.not_mem_nil s)
  · obtain ⟨r, hr, rfl⟩ := List.mem_map.mp hs
    have hrm := restrictYM_subset year month _ r hr
    obtain ⟨h1, h2⟩ := outerJoin_mem plan_df forecast_df r hrm
    have hplan : 0 ≤ r.2.1 := by rw [h1]; exact lookupD_nonneg plan_df r.1 hp
    have hfc : 0 ≤ r.2.2 := by rw [h2]; exact lookupD_nonneg forecast_df r.1 hf
    refine ⟨hplan, hfc, mul_nonneg hfc (kOf_nonneg _ ?_)⟩
    intro q hq
    obtain ⟨hq1, _⟩ := outerJoin_mem plan_df forecast_df q
      (restrictYM_subset year month _ q hq)
    rw [hq1]
    exact lookupD_nonneg plan_df q.1 hp

/-- Claim C3 counterexample: the guard of the scale factor is
`total_forecast > 0`, not `total_forecast == 0`.  With total_plan = 10
and total_forecast = -5 the code produces k = 0 and uniformity 0, while
the claimed formula `forecast · (total_plan / total_forecast)` gives 10,
which is not 0. -/
theorem claim_C3_counterexample :
    finalize_slot_df [((0 : Int), (10 : ℚ))] [((0 : Int), (-5 : ℚ))] none none
        = [⟨0, 10, -5, 0⟩] ∧
    ¬ ((-5 : ℚ) * ((10 : ℚ) / (-5 : ℚ)) = 0) := by
  constructor
  · norm_num [finalize_slot_df, restrictYM, outerJoin, sortedKeys, insertKey, lookupD,
      kOf, totalPlan, totalForecast, List.find?, SlotRecord.mk.injEq]
  · norm_num

/-- Claim C3 (amended): on the merged (possibly month-restricted) table,
the single scale factor is k = total_plan / total_forecast when
total_forecast > 0 and k = 0 whenever total_forecast ≤ 0 (the code's
guard covers zero and negative totals; never a runtime failure);
uniformity per slot is forecast · k; the concrete cases of the spec:
totals (10, 5) give k = 2 with uniformity 2 at a slot of forecast 1, and
total_forecast = 0 gives k = 0. -/
theorem claim_C3 (plan_df forecast_df : List (Int × ℚ)) (year month : Option Int) :
    (0 < totalForecast (restrictYM year month (outerJoin plan_df forecast_df)) →
      kOf (restrictYM year month (outerJoin plan_df forecast_df))
        = totalPlan (restrictYM year month (outerJoin plan_df forecast_df))
            / totalForecast (restrictYM year month (outerJoin plan_df forecast_df))) ∧
    (totalForecast (restrictYM year month (outerJoin plan_df forecast_df)) ≤ 0 →
      kOf (restrictYM year month (outerJoin plan_df forecast_df)) = 0) ∧
    (∀ s ∈ finalize_slot_df plan_df forecast_df year month,
      s.uniformity
        = s.forecast * kOf (restrictYM year month (outerJoin plan_df forecast_df))) ∧
    kOf [((0 : Int), ((10 : ℚ), (5 : ℚ)))] = 2 ∧
    kOf [((0 : Int), ((10 : ℚ), (0 : ℚ)))] = 0 ∧
    finalize_slot_df [((0 : Int), (10 : ℚ)), ((1800 : Int), (0 : ℚ))]
        [((0 : Int), (4 : ℚ)), ((1800 : Int), (1 : ℚ))] none none
      = [⟨0, 10, 4, 8⟩, ⟨1800, 0, 1, 2⟩] := by
  refine ⟨?_, ?_, finalize_mem_eq plan_df forecast_df year month, ?_, ?_, ?_⟩
  · intro htf
    unfold kOf
    rw [if_pos htf]
  · intro htf
    unfold kOf
    rw [if_neg (not_lt.mpr htf)]
  · norm_num [kOf, totalPlan, totalForecast]
  · norm_num [kOf, totalPlan, totalForecast]
  · norm_num [finalize_slot_df, restrictYM, outerJoin, sortedKeys, insertKey, lookupD,
      kOf, totalPlan, totalForecast, List.find?, SlotRecord.mk.injEq]

/-- Witness for C3 at the table with totals (10, 5): the positive-total
branch applies and the single produced record satisfies the uniformity
equation. -/
theorem claim_C3_witness :
    kOf (restrictYM none none (outerJoin [((0 : Int), (10 : ℚ))] [((0 : Int), (5 : ℚ))]))
        = totalPlan (restrictYM none none
              (outerJoin [((0 : Int), (10 : ℚ))] [((0 : Int), (5 : ℚ))]))
          / totalForecast (restrictYM none none
              (outerJoin [((0 : Int), (10 : ℚ))] [((0 : Int), (5 : ℚ))])) ∧
    (⟨0, 10, 5, 10⟩ : SlotRecord).uniformity
        = (⟨0, 10, 5, 10⟩ : SlotRecord).forecast
          * kOf (restrictYM none none
              (outerJoin [((0 : Int), (10 : ℚ))] [((0 : Int), (5 : ℚ))])) := by
  refine ⟨(claim_C3 [((0 : Int), (10 : ℚ))] [((0 : Int), (5 : ℚ))] none none).1 ?_,
    (claim_C3 [((0 : Int), (10 : ℚ))] [((0 : Int), (5 : ℚ))] none none).2.2.1
      ⟨0, 10, 5, 10⟩ ?_⟩
  · norm_num [restrictYM, outerJoin, sortedKeys, insertKey, lookupD, totalForecast,
      List.find?]
  · norm_num [finalize_slot_df, restrictYM, outerJoin, sortedKeys, insertKey, lookupD,
      kOf, totalPlan, totalForecast, List.find?, SlotRecord.mk.injEq]

/-- Claim C7: with zero forecast rows, `calculate_forecast` assigns every
slot the value exactly 0 (without error, for any slot list), and every
record `finalize_slot_df` then produces has forecast 0 and uniformity 0. -/
theorem claim_C7 (times : List Int) (sd ed : Option Int) (is_hourly : Bool)
    (plan_df : List (Int × ℚ)) (year month : Option Int) :
    calculate_forecast [] times sd ed is_hourly
        = Except.ok (times.map fun t => (t, (0 : ℚ))) ∧
    ∀ s ∈ finalize_slot_df plan_df (times.map fun t => (t, (0 : ℚ))) year month,
      s.forecast = 0 ∧ s.uniformity = 0 := by
  refine ⟨rfl, ?_⟩
  intro s hs
  simp only [finalize_slot_df] at hs
  split at hs
  · exact absurd hs (List.not_mem_nil s)
  · obtain ⟨r, hr, rfl⟩ := List.mem_map.mp hs
    have hrm := restrictYM_subset year month _ r hr
    obtain ⟨_, h2⟩ := outerJoin_mem plan_df _ r hrm
    have hz : r.2.2 = 0 := by rw [h2]; exact lookupD_zero times r.1
    exact ⟨hz, by simp only [hz, zero_mul]⟩

/-- Witness for C7: one slot, plan 2, no forecast rows. -/
theorem claim_C7_witness :
    (⟨0, 2, 0, 0⟩ : SlotRecord).forecast = 0 ∧
    (⟨0, 2, 0, 0⟩ : SlotRecord).uniformity = 0 := by
  refine (claim_C7 [0] none none true [((0 : Int), (2 : ℚ))] none none).2
    ⟨0, 2, 0, 0⟩ ?_
  norm_num [finalize_slot_df, restrictYM, outerJoin, sortedKeys, insertKey, lookupD,
    kOf, totalPlan, totalForecast, List.find?, SlotRecord.mk.injEq]

/-! Non-negativity (claim C9) -/

theorem calculate_overlap_nonneg (df : List Interval) (s e : Int) (hse : s ≤ e)
    (h : ∀ r ∈ df, r.start ≤ r.end_) : 0 ≤ calculate_overlap df s e := by
  rw [calculate_overlap_eq]
  refine div_nonneg ?_ (by norm_num)
  rw [Int.cast_nonneg]
  refine List.sum_nonneg ?_
  intro x hx
  obtain ⟨r, hr, rfl⟩ := List.mem_map.mp hx
  have hmem := List.mem_filter.mp hr
  have hpred := of_decide_eq_true hmem.2
  have hr2 := h r hmem.1
  refine sub_nonneg.mpr (max_le (le_min hr2 (le_of_lt hpred.1))
    (le_min (le_of_lt hpred.2) hse))

theorem forecast_rows_nonneg (fcl : List ForecastRow) (times : List Int) (ih : Bool)
    (h : ∀ r ∈ fcl, 0 ≤ r.value) : ∀ p ∈ forecast_rows fcl times ih, 0 ≤ p.2 := by
  intro p hp
  obtain ⟨t, _, rfl⟩ := List.mem_map.mp hp
  refine List.sum_nonneg ?_
  intro x hx
  obtain ⟨r, hr, rfl⟩ := List.mem_map.mp hx
  exact h r (List.mem_of_mem_filter hr)

/-- Claim C9 counterexample (to the claim as stated, which constrains
only the activity intervals): a forecast input row with value -1 —
nothing upstream forbids it — flows through `calculate_forecast` and
`finalize_slot_df` into a SlotRecord whose forecast_value is -1 < 0,
even though every activity interval satisfies end > start. -/
theorem claim_C9_counterexample :
    (0 : Int) < 3600 ∧
    calculate_forecast [⟨0, -1, "c", "g"⟩] [0] none none true
        = Except.ok [((0 : Int), (-1 : ℚ))] ∧
    (finalize_slot_df (plan_rows [⟨0, 3600, "x", "y"⟩] [0] true)
        [((0 : Int), (-1 : ℚ))] none none).map SlotRecord.forecast = [-1] ∧
    ¬ (0 : ℚ) ≤ -1 := by
  refine ⟨by norm_num, ?_, ?_, by norm_num⟩
  · norm_num [calculate_forecast, forecast_rows, List.filter]
  · norm_num [finalize_slot_df, restrictYM, outerJoin, sortedKeys, insertKey, lookupD,
      kOf, totalPlan, totalForecast, List.find?, plan_rows, calculate_overlap,
      slot_width, List.filter, SlotRecord.mk.injEq]

/-- Claim C9 (amended): when every activity interval satisfies
end > start AND every forecast input value is non-negative, every
SlotRecord produced by the aggregation-and-merge pipeline
(`calculate_plan`, `calculate_forecast`, `finalize_slot_df`) has
non-negative plan_hours, forecast_value and uniformity. -/
theorem claim_C9 (df : List Interval) (fc : List ForecastRow) (times : List Int)
    (sd ed : Option Int) (is_hourly : Bool) (year month : Option Int)
    (hdf : ∀ r ∈ df, r.start < r.end_) (hfc : ∀ r ∈ fc, 0 ≤ r.value)
    (plan_df forecast_df : List (Int × ℚ))
    (hp : calculate_plan df times is_hourly = Except.ok plan_df)
    (hf : calculate_forecast fc times sd ed is_hourly = Except.ok forecast_df) :
    ∀ s ∈ finalize_slot_df plan_df forecast_df year month,
      0 ≤ s.plan ∧ 0 ≤ s.forecast ∧ 0 ≤ s.uniformity := by
  have hplan : ∀ p ∈ plan_df, 0 ≤ p.2 := by
    simp only [calculate_plan] at hp
    split at hp
    · exact Except.noConfusion hp
    · injection hp with hp
      subst hp
      intro p hp
      obtain ⟨t, _, rfl⟩ := List.mem_map.mp hp
      have hw : 0 < slot_width is_hourly := by cases is_hourly <;> norm_num [slot_width]
      exact calculate_overlap_nonneg df t (t + slot_width is_hourly) (by omega)
        fun r hr => le_of_lt (hdf r hr)
  have hfcrows : ∀ p ∈ forecast_df, 0 ≤ p.2 := by
    simp only [calculate_forecast] at hf
    split at hf
    · injection hf with hf
      subst hf
      intro p hp
      obtain ⟨t, _, rfl⟩ := List.mem_map.mp hp
      exact le_refl 0
    · split at hf
      · split at hf
        · exact Except.noConfusion hf
        · injection hf with hf
          subst hf
          exact forecast_rows_nonneg fc times true hfc
      · split at hf
        · exact Except.noConfusion hf
        · injection hf with hf
          subst hf
          exact forecast_rows_nonneg _ times false
            fun r hr => hfc r (List.mem_of_mem_filter hr)
      · exact Except.noConfusion hf
  exact finalize_nonneg plan_df forecast_df year month hplan hfcrows

/-- Witness for C9: one interval of one hour, one forecast row of value
1, one hourly slot; the produced record (plan 1/2, forecast 1,
uniformity 1/2) is non-negative throughout. -/
theorem claim_C9_witness :
    0 ≤ (⟨0, 1/2, 1, 1/2⟩ : SlotRecord).plan ∧
    0 ≤ (⟨0, 1/2, 1, 1/2⟩ : SlotRecord).forecast ∧
    0 ≤ (⟨0, 1/2, 1, 1/2⟩ : SlotRecord).uniformity := by
  refine claim_C9 [⟨0, 3600, "x", "y"⟩] [⟨0, 1, "c", "g"⟩] [0] none none true none none
    (by decide) ?_ (plan_rows [⟨0, 3600, "x", "y"⟩] [0] true)
    (forecast_rows [⟨0, 1, "c", "g"⟩] [0] true) rfl rfl
    ⟨0, 1/2, 1, 1/2⟩ ?_
  · intro r hr
    have : r = ⟨0, 1, "c", "g"⟩ := List.mem_singleton.mp hr
    rw [this]
    norm_num
  · norm_num [finalize_slot_df, restrictYM, outerJoin, sortedKeys, insertKey, lookupD,
      kOf, totalPlan, totalForecast, List.find?, plan_rows, forecast_rows,
      calculate_overlap, slot_width, List.filter, SlotRecord.mk.injEq]

/-! Scale-factor scope in the two call paths (claim C10) -/

/-- Claim C10: (a) when both year and month are supplied,
`finalize_slot_df` restricts the merged table first, so each record's
uniformity uses the scale factor of the month-restricted totals; (b) the
daily-view pipeline calls `finalize_slot_df` with year and month
omitted and filters for display afterwards, so one single scale factor —
computed from the totals of the full available range — underlies the
displayed uniformity of every month; (c) concretely, displaying January
2023 out of a two-month table is not the same as restricting to January
2023 before computing the scale factor. -/
theorem claim_C10 :
    (∀ (plan_df forecast_df : List (Int × ℚ)) (y m : Int),
      ∀ s ∈ finalize_slot_df plan_df forecast_df (some y) (some m),
        s.uniformity = s.forecast
          * kOf (restrictYM (some y) (some m) (outerJoin plan_df forecast_df))) ∧
    (∀ (df : List Interval) (fc : List ForecastRow) (min_date max_date : Int)
        (session_ym : Option (Int × Int)) (slot_df : List SlotRecord),
      prepare_slot_data_daily df fc min_date max_date session_ym = Except.ok slot_df →
      ∃ k : ℚ, ∀ (y m : Int), ∀ s ∈ displayMonthFilter y m slot_df,
        s.uniformity = s.forecast * k) ∧
    displayMonthFilter 2023 1
        (finalize_slot_df [(86400 * 19358, 10), (86400 * 19389, 0)]
          [(86400 * 19358, 5), (86400 * 19389, 5)] none none)
      ≠ finalize_slot_df [(86400 * 19358, 10), (86400 * 19389, 0)]
          [(86400 * 19358, 5), (86400 * 19389, 5)] (some 2023) (some 1) := by
  refine ⟨?_, ?_, ?_⟩
  · intro plan_df forecast_df y m s hs
    exact finalize_mem_eq plan_df forecast_df (some y) (some m) s hs
  · intro df fc mnd mxd sym slot_df hok
    simp only [prepare_slot_data_daily] at hok
    split at hok
    · exact Except.noConfusion hok
    · rename_i plan_df hp
      split at hok
      · exact Except.noConfusion hok
      · rename_i forecast_df hfc
        injection hok with hok
        subst hok
        refine ⟨kOf (restrictYM none none (outerJoin plan_df forecast_df)), ?_⟩
        intro y m s hs
        exact finalize_mem_eq plan_df forecast_df none none s
          (List.mem_of_mem_filter hs)
  · intro hcontra
    have ha : displayMonthFilter 2023 1
        (finalize_slot_df [(86400 * 19358, 10), (86400 * 19389, 0)]
          [(86400 * 19358, 5), (86400 * 19389, 5)] none none)
        = [⟨86400 * 19358, 10, 5, 5⟩] := by
      norm_num [finalize_slot_df, restrictYM, outerJoin, sortedKeys, insertKey, lookupD,
        kOf, totalPlan, totalForecast, List.find?, displayMonthFilter, List.filter,
        yearOf, monthOf, civilFromDays, SlotRecord.mk.injEq]
    have hb : finalize_slot_df [(86400 * 19358, 10), (86400 * 19389, 0)]
          [(86400 * 19358, 5), (86400 * 19389, 5)] (some 2023) (some 1)
        = [⟨86400 * 19358, 10, 5, 10⟩] := by
      norm_num [finalize_slot_df, restrictYM, outerJoin, sortedKeys, insertKey, lookupD,
        kOf, totalPlan, totalForecast, List.find?, List.filter,
        yearOf, monthOf, civilFromDays, SlotRecord.mk.injEq]
    rw [ha, hb] at hcontra
    have h5 := List.head_eq_of_cons_eq hcontra
    rw [SlotRecord.mk.injEq] at h5
    norm_num at h5

/-- Witness for C10: the month-restricted scale factor applies to the
single January record of a one-slot table. -/
theorem claim_C10_witness :
    (⟨86400 * 19358, 10, 5, 10⟩ : SlotRecord).uniformity
      = (⟨86400 * 19358, 10, 5, 10⟩ : SlotRecord).forecast
        * kOf (restrictYM (some 2023) (some 1)
            (outerJoin [((86400 * 19358 : Int), (10 : ℚ))]
              [((86400 * 19358 : Int), (5 : ℚ))])) := by
  refine claim_C10.1 [((86400 * 19358 : Int), (10 : ℚ))]
    [((86400 * 19358 : Int), (5 : ℚ))] 2023 1 ⟨86400 * 19358, 10, 5, 10⟩ ?_
  norm_num [finalize_slot_df, restrictYM, outerJoin, sortedKeys, insertKey, lookupD,
    kOf, totalPlan, totalForecast, List.find?, List.filter,
    yearOf, monthOf, civilFromDays, SlotRecord.mk.injEq]

/-! Empty-input behaviour (claims C4 and C6) -/

/-- Claim C4 evaluation: with an empty channel list or an empty
skill-group list, `kpi_data` is empty, `pd.DataFrame([])` has no
columns, and the subsequent `kpi_df['План'] - kpi_df['Прогноз']` raises
`KeyError: 'План'` instead of returning a zero-row table. -/
theorem claim_C4_behavior :
    calculate_monthly_kpi [⟨0, 3600, "Чат", "g1"⟩] [] [] (["g1"]) [] 2023 2
        = Except.error ("KeyError: План") ∧
    calculate_monthly_kpi [⟨0, 3600, "Чат", "g1"⟩] [] (["Чаты"]) [] [] 2023 2
        = Except.error ("KeyError: План") := by
  constructor
  · rfl
  · rfl

/-- Claim C6 evaluation: an empty activity set and an empty forecast set
are indeed well-formed zero results, but an empty slot list makes
`pd.DataFrame([]).set_index('slot_start')` raise
`KeyError: 'slot_start'` inside both `calculate_plan` and (for a
non-empty forecast) `calculate_forecast`, instead of returning a
well-formed empty result.  The empty slot list is reachable: the daily
view generates `pd.date_range(min_date, max_date, inclusive='left')`,
which is empty when all activity lies on a single day. -/
theorem claim_C6_behavior :
    calculate_plan [⟨0, 3600, "a", "b"⟩] [] true
        = Except.error ("KeyError: slot_start") ∧
    calculate_forecast [⟨0, 1, "c", "g"⟩] [] (some 0) (some 86400) false
        = Except.error ("KeyError: slot_start") ∧
    calculate_plan [] [0] true = Except.ok [((0 : Int), (0 : ℚ))] ∧
    calculate_forecast [] [0] none none true = Except.ok [((0 : Int), (0 : ℚ))] := by
  refine ⟨rfl, rfl, rfl, rfl⟩

/-! KPI cross-product shape (claim C8) -/

theorem length_flatMap_const {α β : Type} (xs : List α) (f : α → List β) (L : Nat)
    (h : ∀ x ∈ xs, (f x).length = L) : (xs.flatMap f).length = xs.length * L := by
  induction xs with
  | nil => simp
  | cons a xs ih =>
      rw [List.flatMap_cons, List.length_append, h a (List.mem_cons_self a xs),
        ih fun x hx => h x (List.mem_cons_of_mem a hx), List.length_cons]
      ring

theorem nodup_flatMap {α β : Type} (xs : List α) (f : α → List β)
    (hx : xs.Nodup) (h1 : ∀ x ∈ xs, (f x).Nodup)
    (h2 : ∀ x ∈ xs, ∀ y ∈ xs, x ≠ y → ∀ b ∈ f x, b ∉ f y) :
    (xs.flatMap f).Nodup := by
  induction xs with
  | nil => simp
  | cons a xs ih =>
      rw [List.flatMap_cons]
      refine List.Nodup.append (h1 a (List.mem_cons_self a xs)) ?_ ?_
      · exact ih (List.Nodup.of_cons hx)
          (fun x hx' => h1 x (List.mem_cons_of_mem a hx'))
          (fun x hx' y hy' => h2 x (List.mem_cons_of_mem a hx') y
            (List.mem_cons_of_mem a hy'))
      · intro b hb hb'
        obtain ⟨y, hy, hby⟩ := List.mem_flatMap.mp hb'
        have hay : a ≠ y := by
          rintro rfl
          exact (List.nodup_cons.mp hx).1 hy
        exact h2 a (List.mem_cons_self a xs) y (List.mem_cons_of_mem a hy) hay b hb hby

theorem date_range_left_nodup (ps pe w : Int) (hw : 0 < w) :
    (date_range_left ps pe w).Nodup := by
  refine List.Nodup.map ?_ (List.nodup_range _)
  intro a b hab
  have h1 : (a : Int) * w = (b : Int) * w := add_left_cancel hab
  have h2 : (a : Int) = b := mul_right_cancel₀ (by omega) h1
  exact_mod_cast h2

theorem slots_month_length (y m : Int) (hD : 0 < daysInMonth y m) :
    (date_range_left (monthStartSec y m)
      (monthStartSec (nextMonth y m).1 (nextMonth y m).2) 1800).length
      = (daysInMonth y m).toNat * 48 := by
  simp only [date_range_left, List.length_map, List.length_range]
  have hdiff : monthStartSec (nextMonth y m).1 (nextMonth y m).2 - monthStartSec y m
      = 86400 * daysInMonth y m := by
    simp only [monthStartSec, daysInMonth]
    ring
  omega

theorem kpi_rows_length (df : List Interval) (fc : List ForecastRow)
    (chans vars : List String) (v2s : List (String × String)) (y m : Int) :
    (kpi_rows df fc chans vars v2s y m).length
      = chans.length * (vars.length
          * (date_range_left (monthStartSec y m)
              (monthStartSec (nextMonth y m).1 (nextMonth y m).2) 1800).length) := by
  simp only [kpi_rows]
  refine length_flatMap_const chans _ _ ?_
  intro c _
  refine length_flatMap_const vars _ _ ?_
  intro v _
  exact List.length_map _ _

theorem kpi_rows_map_key (df : List Interval) (fc : List ForecastRow)
    (chans vars : List String) (v2s : List (String × String)) (y m : Int) :
    (kpi_rows df fc chans vars v2s y m).map kpiKey
      = chans.flatMap fun channel => vars.flatMap fun skill_variant =>
          (date_range_left (monthStartSec y m)
            (monthStartSec (nextMonth y m).1 (nextMonth y m).2) 1800).map
            fun ts => ((ts / 86400 : Int), (ts % 86400 : Int), channel, skill_variant) := by
  simp only [kpi_rows, List.map_flatMap, List.map_map]
  rfl

theorem kpi_keys_nodup (chans vars : List String) (slots : List Int)
    (hcn : chans.Nodup) (hvn : vars.Nodup) (hsn : slots.Nodup) :
    (chans.flatMap fun c => vars.flatMap fun v =>
      slots.map fun ts => ((ts / 86400 : Int), (ts % 86400 : Int), c, v)).Nodup := by
  refine nodup_flatMap chans _ hcn ?_ ?_
  · intro c _
    refine nodup_flatMap vars _ hvn ?_ ?_
    · intro v _
      refine List.Nodup.map ?_ hsn
      intro a b hab
      simp only [Prod.mk.injEq] at hab
      omega
    · intro v _ v' _ hvv b hb hb'
      obtain ⟨ts, _, rfl⟩ := List.mem_map.mp hb
      obtain ⟨ts', _, heq⟩ := List.mem_map.mp hb'
      simp only [Prod.mk.injEq] at heq
      exact hvv heq.2.2.2.symm
  · intro c _ c' _ hcc b hb hb'
    obtain ⟨v, _, hbv⟩ := List.mem_flatMap.mp hb
    obtain ⟨ts, _, rfl⟩ := List.mem_map.mp hbv
    obtain ⟨v', _, hbv'⟩ := List.mem_flatMap.mp hb'
    obtain ⟨ts', _, heq⟩ := List.mem_map.mp hbv'
    simp only [Prod.mk.injEq] at heq
    exact hcc heq.2.2.1.symm

/-- Claim C8 counterexample (to the claim as stated, which holds for any
forecast input): with an empty forecast frame — the absent-upload case —
and non-empty channel and skill-group selections, the compiler raises
`KeyError: 'system_group'` (the line-605 replacement frame lacks that
column) instead of producing the C × S × D × 48 rows. -/
theorem claim_C8_counterexample :
    calculate_monthly_kpi [] [] (["Чаты"]) (["a"]) [] 2023 2
      = Except.error ("KeyError: system_group") := rfl

/-- Claim C8 (amended): for a non-empty forecast frame, non-empty,
duplicate-free channel and skill-group selections and a month of D days,
`calculate_monthly_kpi` succeeds and its output has exactly
C × S × D × 48 rows at 30-minute granularity, each with a distinct
(date, time, channel, skill-group) key. -/
theorem claim_C8 (df : List Interval) (fc : List ForecastRow)
    (chans vars : List String) (v2s : List (String × String)) (y m : Int)
    (hfc : fc ≠ []) (hc : chans ≠ []) (hv : vars ≠ [])
    (hcn : chans.Nodup) (hvn : vars.Nodup) (hD : 0 < daysInMonth y m) :
    calculate_monthly_kpi df fc chans vars v2s y m
        = Except.ok ((kpi_rows df fc chans vars v2s y m).map
            fun r => { r with delta := r.plan - r.forecast }) ∧
    ((kpi_rows df fc chans vars v2s y m).map
        fun r => { r with delta := r.plan - r.forecast }).length
      = chans.length * vars.length * ((daysInMonth y m).toNat * 48) ∧
    (((kpi_rows df fc chans vars v2s y m).map
        fun r => { r with delta := r.plan - r.forecast }).map kpiKey).Nodup := by
  have hslots := slots_month_length y m hD
  have hlen := kpi_rows_length df fc chans vars v2s y m
  rw [hslots] at hlen
  have hc' : 0 < chans.length := List.length_pos.mpr hc
  have hv' : 0 < vars.length := List.length_pos.mpr hv
  have hfcempty : fc.isEmpty = false := by
    cases fc with
    | nil => exact absurd rfl hfc
    | cons a l => rfl
  refine ⟨?_, ?_, ?_⟩
  · simp only [calculate_monthly_kpi, hfcempty, Bool.false_and, Bool.false_eq_true,
      if_false]
    rw [if_neg]
    rw [List.isEmpty_iff]
    intro hnil
    rw [hnil] at hlen
    have hpos : 0 < chans.length * (vars.length * ((daysInMonth y m).toNat * 48)) :=
      Nat.mul_pos hc' (Nat.mul_pos hv' (by omega))
    rw [← hlen] at hpos
    simp at hpos
  · rw [List.length_map, hlen]
    ring
  · rw [List.map_map]
    have hcomp : (kpiKey ∘ fun r : KpiRow => { r with delta := r.plan - r.forecast })
        = kpiKey := rfl
    rw [hcomp, kpi_rows_map_key]
    exact kpi_keys_nodup chans vars _ hcn hvn
      (date_range_left_nodup _ _ 1800 (by norm_num))

/-- Witness for C8: one forecast row, 2 channels, 3 skill groups,
February 2023 (28 days): exactly 2 × 3 × 28 × 48 = 8064 rows. -/
theorem claim_C8_witness :
    daysInMonth 2023 2 = 28 ∧
    calculate_monthly_kpi [] [⟨0, 0, "c", "g"⟩]
        (["Чаты", "Входящие звонки"]) (["a", "b", "c"]) [] 2023 2
        = Except.ok ((kpi_rows [] [⟨0, 0, "c", "g"⟩]
            (["Чаты", "Входящие звонки"]) (["a", "b", "c"]) [] 2023 2).map
            fun r => { r with delta := r.plan - r.forecast }) ∧
    ((kpi_rows [] [⟨0, 0, "c", "g"⟩]
        (["Чаты", "Входящие звонки"]) (["a", "b", "c"]) [] 2023 2).map
        fun r => { r with delta := r.plan - r.forecast }).length = 8064 := by
  have h := claim_C8 [] [⟨0, 0, "c", "g"⟩] (["Чаты", "Входящие звонки"])
    (["a", "b", "c"]) [] 2023 2 (List.cons_ne_nil _ _) (by decide) (by decide)
    (by decide) (by decide) (by decide)
  exact ⟨by decide, h.1, h.2.1.trans (by decide)⟩

end ActivityApp
